import Mathlib

/-!
Verification of the intent-resolution engine and retry wrappers of the
smart-gemini-agent repository.  The Python source
(`core/intent_analyzer.py`, `utils/decorators.py`) is shallowly embedded:
regular-expression matching is modelled by a small backtracking matcher
with Python `re` semantics (leftmost search position, ordered alternation,
greedy quantifiers, last-write-wins capture groups), dictionaries by
association lists, and the one potentially-raising operation (`int()`)
by an `Except`-valued parser so that exception behaviour is explicit.
-/

deriving instance DecidableEq for Except

namespace SGA

/-- A Python value appearing in a parameter dictionary: a string, `None`,
or a boolean (only these shapes occur in `intent_analyzer.py`). -/
inductive PVal : Type where
  | vStr (s : String)
  | vNone
  | vBool (b : Bool)
deriving DecidableEq, Repr

/-- A Python dict used as a parameter set, as an insertion-ordered
association list. -/
abbrev Params : Type := List (String × PVal)

/-- `d.get(k)`: first binding of `k`, `None` (here `Option.none`) if absent. -/
def pget (ps : Params) (k : String) : Option PVal :=
  (ps.find? (fun kv => kv.1 = k)).map (fun kv => kv.2)

/-- Python `str` whitespace characters (the ASCII set used by `\s`,
`str.strip`, `str.split` on the inputs this program handles). -/
def pySpace (c : Char) : Bool :=
  c = ' ' || c = '\t' || c = '\n' || c = '\r' ||
  c.toNat = 0x0b || c.toNat = 0x0c

/-- Cyrillic letters (the alphabets appearing in the pattern table). -/
def isCyr (c : Char) : Bool :=
  (0x400 ≤ c.toNat && c.toNat ≤ 0x4FF)

/-- Python `\w`: letters (incl. Cyrillic), digits, underscore. -/
def pyWord (c : Char) : Bool :=
  c.isAlpha || c.isDigit || c = '_' || isCyr c

/-- `str.lower` on the character ranges used by the program
(ASCII and Cyrillic, incl. Ё). -/
def pyLowerChar (c : Char) : Char :=
  if c.toNat ≥ 0x41 && c.toNat ≤ 0x5A then Char.ofNat (c.toNat + 32)
  else if c.toNat ≥ 0x410 && c.toNat ≤ 0x42F then Char.ofNat (c.toNat + 0x20)
  else if c.toNat = 0x401 then Char.ofNat 0x451
  else c

def pyLower (s : String) : String := String.mk (s.data.map pyLowerChar)

/-- `str.strip()`: drop leading and trailing whitespace. -/
def pyStrip (s : String) : String :=
  String.mk (((s.data.dropWhile pySpace).reverse.dropWhile pySpace).reverse)

/-- Helper for `str.split()`: accumulate the current word (reversed). -/
def pySplitAux : List Char → List Char → List String
  | [], [] => []
  | [], cur => [String.mk cur.reverse]
  | c :: rest, cur =>
    if pySpace c then
      match cur with
      | [] => pySplitAux rest []
      | _ => String.mk cur.reverse :: pySplitAux rest []
    else pySplitAux rest (c :: cur)

/-- `str.split()` with no separator: split on whitespace runs, no empties. -/
def pySplit (s : String) : List String := pySplitAux s.data []

/-- Helper for `in`: is `n` a prefix of some suffix of the haystack. -/
def isSubstrAux (n : List Char) : List Char → Bool
  | [] => n.isEmpty
  | c :: rest => n.isPrefixOf (c :: rest) || isSubstrAux n rest

/-- Python `needle in hay` on strings. -/
def isSubstr (needle hay : String) : Bool := isSubstrAux needle.data hay.data

/-- `int(s)` for the decimal strings this program feeds it; raises
(`Except.error`) on anything that is not a non-empty digit sequence. -/
def pyIntE (s : String) : Except String Int :=
  if s.data ≠ [] && s.data.all Char.isDigit then
    .ok (Int.ofNat (s.data.foldl (fun a c => a * 10 + (c.toNat - 48)) 0))
  else .error "ValueError"

/-! ## A backtracking regex matcher with Python `re` semantics

Quantifiers in the source's patterns are applied only to single-character
classes (or appear as `?` on sub-regexes), so `star`/`plus` take a
character class and termination is structural. -/

/-- Regex abstract syntax covering the constructs used in the source. -/
inductive Re : Type where
  | eps
  | lit (cs : List Char)
  | cls (p : Char → Bool)
  | starC (p : Char → Bool)
  | plusC (p : Char → Bool)
  | opt (r : Re)
  | cat (a b : Re)
  | alt (a b : Re)
  | grp (i : Nat) (r : Re)

/-- Capture store: most recent binding first (last write wins). -/
def Caps : Type := List (Nat × String)

def setCap (caps : Caps) (i : Nat) (v : String) : Caps := (i, v) :: caps

def capLookup (caps : Caps) (i : Nat) : Option String :=
  (caps.find? (fun c => c.1 = i)).map (fun c => c.2)

/-- Greedy Kleene star over a character class in continuation-passing
style: consume as much as possible, backtracking to shorter runs. -/
def tryStar {α : Type} (p : Char → Bool) (k : List Char → Caps → Option α) :
    List Char → Caps → Option α
  | [], caps => k [] caps
  | c :: rest, caps =>
    if p c then
      match tryStar p k rest caps with
      | some r => some r
      | none => k (c :: rest) caps
    else k (c :: rest) caps

/-- The backtracking matcher.  Alternatives are tried left to right,
`opt` prefers to consume, captures record the consumed span; this is the
preference order of Python's `re`. -/
def mtch {α : Type} : Re → List Char → Caps → (List Char → Caps → Option α) → Option α
  | .eps, input, caps, k => k input caps
  | .lit cs, input, caps, k =>
    if cs.isPrefixOf input then k (input.drop cs.length) caps else none
  | .cls p, input, caps, k =>
    match input with
    | [] => none
    | c :: rest => if p c then k rest caps else none
  | .starC p, input, caps, k => tryStar p k input caps
  | .plusC p, input, caps, k =>
    match input with
    | [] => none
    | c :: rest => if p c then tryStar p k rest caps else none
  | .opt r, input, caps, k =>
    match mtch r input caps k with
    | some res => some res
    | none => k input caps
  | .cat a b, input, caps, k =>
    mtch a input caps (fun rest caps2 => mtch b rest caps2 k)
  | .alt a b, input, caps, k =>
    match mtch a input caps k with
    | some res => some res
    | none => mtch b input caps k
  | .grp i r, input, caps, k =>
    mtch r input caps (fun rest caps2 =>
      k rest (setCap caps2 i (String.mk (input.take (input.length - rest.length)))))

/-- `re.search`: try match at each start position, leftmost wins. -/
def searchAux (r : Re) : List Char → Option Caps
  | [] => mtch r [] [] (fun _ caps => some caps)
  | c :: rest =>
    match mtch r (c :: rest) [] (fun _ caps => some caps) with
    | some caps => some caps
    | none => searchAux r rest

def reSearch (r : Re) (s : String) : Option Caps := searchAux r s.data

/-- `re.sub(pat, '', s)` for a `^`-anchored pattern: a match can only
occur at position 0, and the matched prefix is removed. -/
def subAnchoredEmpty (r : Re) (s : String) : String :=
  match mtch r s.data [] (fun rest _ => some rest) with
  | some rest => String.mk rest
  | none => s

/-! ## The source's regular expressions -/

/-- Literal regex from a string. -/
def rlit (s : String) : Re := .lit s.data

/-- Concatenation of a pattern list. -/
def rcat (rs : List Re) : Re := rs.foldr .cat .eps

/-- Ordered alternation `a|b|c|…` (first alternative preferred). -/
def raltL (r : Re) (rs : List Re) : Re := rs.foldl .alt r

/-- `[^\s]` -/
def nsp (c : Char) : Bool := !pySpace c

/-- `.` (anything except a newline) -/
def dotc (c : Char) : Bool := c ≠ '\n'

/-- `[\w\._-]` -/
def wrdDot (c : Char) : Bool := pyWord c || c = '.' || c = '_' || c = '-'

/-- A compiled pattern: regex plus its number of capture groups. -/
structure Pat : Type where
  re : Re
  ngroups : Nat

/-- `(исправь|поправь|отформатируй|улучши|fix|format|refactor)\s+.*(?:в\s+файле|in\s+file)\s+([\w\._-]+)` -/
def reRefactor : Pat :=
  ⟨rcat [
    .grp 1 (raltL (rlit "исправь") [rlit "поправь", rlit "отформатируй",
      rlit "улучши", rlit "fix", rlit "format", rlit "refactor"]),
    .plusC pySpace, .starC dotc,
    .alt (rcat [rlit "в", .plusC pySpace, rlit "файле"])
         (rcat [rlit "in", .plusC pySpace, rlit "file"]),
    .plusC pySpace, .grp 2 (.plusC wrdDot)], 2⟩

/-- `(?:создай|создать|сделай|новый)\s+(?:excel\s+)?файл\s+([^\s]+)` -/
def reCreateFile1 : Pat :=
  ⟨rcat [
    raltL (rlit "создай") [rlit "создать", rlit "сделай", rlit "новый"],
    .plusC pySpace, .opt (rcat [rlit "excel", .plusC pySpace]),
    rlit "файл", .plusC pySpace, .grp 1 (.plusC nsp)], 1⟩

/-- `(?:создай|создать)\s+([^\s]*\.xlsx?)` -/
def reCreateFile2 : Pat :=
  ⟨rcat [
    .alt (rlit "создай") (rlit "создать"), .plusC pySpace,
    .grp 1 (rcat [.starC nsp, rlit ".xls", .opt (rlit "x")])], 1⟩

/-- `(?:create|make)\s+(?:excel\s+)?file\s+([^\s]+)` -/
def reCreateFile3 : Pat :=
  ⟨rcat [
    .alt (rlit "create") (rlit "make"),
    .plusC pySpace, .opt (rcat [rlit "excel", .plusC pySpace]),
    rlit "file", .plusC pySpace, .grp 1 (.plusC nsp)], 1⟩

/-- `(?:создай|создать)\s+(?:папку|директорию)\s+([^\s]+)` -/
def reCreateDir1 : Pat :=
  ⟨rcat [
    .alt (rlit "создай") (rlit "создать"), .plusC pySpace,
    .alt (rlit "папку") (rlit "директорию"),
    .plusC pySpace, .grp 1 (.plusC nsp)], 1⟩

/-- `новая\s+папка\s+([^\s]+)` -/
def reCreateDir2 : Pat :=
  ⟨rcat [rlit "новая", .plusC pySpace, rlit "папка", .plusC pySpace,
    .grp 1 (.plusC nsp)], 1⟩

/-- `(?:create\s+folder|make\s+directory|mkdir)\s+([^\s]+)` -/
def reCreateDir3 : Pat :=
  ⟨rcat [
    raltL (rcat [rlit "create", .plusC pySpace, rlit "folder"])
      [rcat [rlit "make", .plusC pySpace, rlit "directory"], rlit "mkdir"],
    .plusC pySpace, .grp 1 (.plusC nsp)], 1⟩

/-- `покажи\s+файлы` -/
def reListDir1 : Pat := ⟨rcat [rlit "покажи", .plusC pySpace, rlit "файлы"], 0⟩

/-- `список\s+файлов` -/
def reListDir2 : Pat := ⟨rcat [rlit "список", .plusC pySpace, rlit "файлов"], 0⟩

/-- `что\s+в\s+папке` -/
def reListDir3 : Pat :=
  ⟨rcat [rlit "что", .plusC pySpace, rlit "в", .plusC pySpace, rlit "папке"], 0⟩

/-- `содержимое\s+папки\s*([^\s]*)` -/
def reListDir4 : Pat :=
  ⟨rcat [rlit "содержимое", .plusC pySpace, rlit "папки", .starC pySpace,
    .grp 1 (.starC nsp)], 1⟩

/-- `(?:ls|dir)\s*([^\s]*)` -/
def reListDir5 : Pat :=
  ⟨rcat [.alt (rlit "ls") (rlit "dir"), .starC pySpace, .grp 1 (.starC nsp)], 1⟩

/-- `list\s+files` -/
def reListDir6 : Pat := ⟨rcat [rlit "list", .plusC pySpace, rlit "files"], 0⟩

/-- `(?:покажи|читай|прочитай|открой|read|show|cat)\s+(?:файл|содержимое)?\s*([^\s]+)` -/
def reReadFile : Pat :=
  ⟨rcat [
    raltL (rlit "покажи") [rlit "читай", rlit "прочитай", rlit "открой",
      rlit "read", rlit "show", rlit "cat"],
    .plusC pySpace, .opt (.alt (rlit "файл") (rlit "содержимое")),
    .starC pySpace, .grp 1 (.plusC nsp)], 1⟩

/-- `(?:удали|удалить|убери|delete|remove|rm)\s+(?:файл)?\s*(.+)` -/
def reDeleteFile : Pat :=
  ⟨rcat [
    raltL (rlit "удали") [rlit "удалить", rlit "убери", rlit "delete",
      rlit "remove", rlit "rm"],
    .plusC pySpace, .opt (rlit "файл"), .starC pySpace,
    .grp 1 (.plusC dotc)], 1⟩

/-- `(?:найди|поиск|ищи|search|find)\s+(.+)` -/
def reSearchPat : Pat :=
  ⟨rcat [
    raltL (rlit "найди") [rlit "поиск", rlit "ищи", rlit "search", rlit "find"],
    .plusC pySpace, .grp 1 (.plusC dotc)], 1⟩

/-- `(?:найди\s+в\s+интернете|поиск\s+в\s+сети|гугли|web\s+search|google)\s+(.+)` -/
def reWebSearch : Pat :=
  ⟨rcat [
    raltL (rcat [rlit "найди", .plusC pySpace, rlit "в", .plusC pySpace, rlit "интернете"])
      [rcat [rlit "поиск", .plusC pySpace, rlit "в", .plusC pySpace, rlit "сети"],
       rlit "гугли",
       rcat [rlit "web", .plusC pySpace, rlit "search"],
       rlit "google"],
    .plusC pySpace, .grp 1 (.plusC dotc)], 1⟩

/-- The `intent_patterns` table: intents in declaration order, patterns
within an intent in declaration order. -/
def intent_patterns : List (String × List Pat) :=
  [("refactor_file", [reRefactor]),
   ("create_file", [reCreateFile1, reCreateFile2, reCreateFile3]),
   ("create_directory", [reCreateDir1, reCreateDir2, reCreateDir3]),
   ("list_directory", [reListDir1, reListDir2, reListDir3, reListDir4,
      reListDir5, reListDir6]),
   ("read_file", [reReadFile]),
   ("delete_file", [reDeleteFile]),
   ("search", [reSearchPat]),
   ("web_search", [reWebSearch])]

/-- `с содержимым\s+(.+)|с текстом\s+(.+)|with content\s+(.+)` -/
def reContent : Pat :=
  ⟨raltL (rcat [rlit "с содержимым", .plusC pySpace, .grp 1 (.plusC dotc)])
    [rcat [rlit "с текстом", .plusC pySpace, .grp 2 (.plusC dotc)],
     rcat [rlit "with content", .plusC pySpace, .grp 3 (.plusC dotc)]], 3⟩

/-- `^(файл|файла|file)\s+` (target cleanup, file filler words). -/
def reFillerFile : Re :=
  rcat [.grp 1 (raltL (rlit "файл") [rlit "файла", rlit "file"]), .plusC pySpace]

/-- `^(папку|папка|folder|directory)\s+` (target cleanup, folder filler words). -/
def reFillerDir : Re :=
  rcat [.grp 1 (raltL (rlit "папку") [rlit "папка", rlit "folder",
    rlit "directory"]), .plusC pySpace]

/-- `retry_delay\s*{\s*seconds:\s*(\d+)` (decorators.py). -/
def reRetryDelay : Re :=
  rcat [rlit "retry_delay", .starC pySpace, rlit "\x7b", .starC pySpace,
    rlit "seconds:", .starC pySpace, .grp 1 (.plusC Char.isDigit)]

/-! ## Context memory -/

/-- The analyzer's `context_memory` dict.  Each field is `some v` when the
key is present (Python value `v`, possibly `None` encoded inside `v`) and
`none` when the key is absent. -/
structure ContextMemory : Type where
  last_intent : Option String
  last_params : Option Params
  last_suggestions : Option (List PVal)
  last_response : Option PVal
deriving DecidableEq

/-- `context_memory = {}` at construction. -/
def emptyCM : ContextMemory := ⟨none, none, none, none⟩

/-- `update_context_memory`: merge-in `last_intent`, `last_params`,
`last_response`; other keys (in particular `last_suggestions`) untouched. -/
def update_context_memory (cm : ContextMemory) (intent : String)
    (params : Params) (response : PVal) : ContextMemory :=
  { cm with last_intent := some intent, last_params := some params,
            last_response := some response }

/-- `clear_context_memory`: `context_memory.clear()`. -/
def clear_context_memory (_cm : ContextMemory) : ContextMemory := emptyCM

/-- States of `context_memory` reachable from construction via the two
mutators (the only writers in the repository). -/
inductive Reachable : ContextMemory → Prop where
  | init : Reachable emptyCM
  | update (cm : ContextMemory) (intent : String) (params : Params)
      (response : PVal) : Reachable cm →
      Reachable (update_context_memory cm intent params response)
  | clear (cm : ContextMemory) : Reachable cm →
      Reachable (clear_context_memory cm)

/-! ## The intent analyzer -/

/-- The fixed context-keyword vocabulary of `_is_context_reference`. -/
def contextKeywords : List String :=
  ["первый", "второй", "третий", "четвертый", "пятый",
   "первый вариант", "второй вариант", "третий вариант",
   "да", "давай", "сделай это", "выполни"]

/-- `_is_context_reference` (input already lowercased and stripped).
Note the second branch returns its keyword scan unconditionally, so the
rename branch is only reachable when the utterance contains `.` or
`файл`. -/
def is_context_reference (cm : ContextMemory) (s : String) : Bool :=
  if s = "1" ∨ s = "2" ∨ s = "3" ∨ s = "4" ∨ s = "5" then true
  else if (pySplit s).length ≤ 2 ∧
      ¬(isSubstr "." s = true ∨ isSubstr "файл" s = true) then
    contextKeywords.any (fun k => isSubstr k s)
  else if (pySplit s).length ≤ 2 ∧ isSubstr "переименуй" s = true then
    decide (cm.last_intent = some "delete_file")
  else false

/-- Python truthiness of `context_memory.get('last_intent')`. -/
def strTruthy : Option String → Bool
  | none => false
  | some s => s ≠ ""

/-- `_handle_context_reference`.  The `int()` conversion is the one
fallible operation, hence the `Except` result. -/
def handle_context_reference (cm : ContextMemory) (s : String) :
    Except String (String × Params) := do
  let li := cm.last_intent
  let lp := (cm.last_params).getD []
  let ls := (cm.last_suggestions).getD []
  let numeric : Option (String × Params) ←
    if s = "1" ∨ s = "2" ∨ s = "3" ∨ s = "4" ∨ s = "5" then do
      let n ← pyIntE s
      let optionNum : Int := n - 1
      if li = some "delete_file" ∧ ls ≠ [] then
        let targetFile := (pget lp "target").getD .vNone
        if optionNum = 0 then
          pure (some ("move_file",
            [("target", targetFile), ("action", .vStr "rename_to_backup"),
             ("context_action", .vStr "rename_for_deletion")]))
        else if optionNum = 1 then
          pure (some ("move_file",
            [("target", targetFile), ("action", .vStr "move_to_delete_folder"),
             ("context_action", .vStr "move_for_deletion")]))
        else if optionNum = 2 then
          pure (some ("write_file",
            [("target", targetFile), ("content", .vStr ""),
             ("context_action", .vStr "clear_content")]))
        else pure none
      else pure none
    else pure none
  match numeric with
  | some r => pure r
  | none =>
    if (["переименуй", "rename"].any (fun w => isSubstr w s)) = true ∧
        li = some "delete_file" then
      pure ("move_file",
        [("target", (pget lp "target").getD .vNone),
         ("action", .vStr "rename_to_backup"),
         ("context_action", .vStr "rename_for_deletion")])
    else if (["да", "давай", "сделай", "выполни"].any (fun w => isSubstr w s)) = true ∧
        strTruthy li = true ∧ lp ≠ [] then
      pure (li.getD "", lp)
    else
      pure ("general",
        [("context_reference", .vBool true), ("original_input", .vStr s)])

/-- `groups()` of a match of a pattern with `n` groups: group values in
number order, `None` for a group that did not participate. -/
def groupsOf (n : Nat) (caps : Caps) : List (Option String) :=
  (List.range n).map (fun i => capLookup caps (i + 1))

/-- `next((g for g in reversed(groups) if g is not None), None)`:
the first non-`None` group scanned in reverse order. -/
def raw_target (groups : List (Option String)) : Option String :=
  groups.reverse.findSome? id

/-- Target cleanup: `strip()` then the two anchored filler-word `re.sub`s. -/
def cleanTarget (t : String) : String :=
  subAnchoredEmpty reFillerDir (subAnchoredEmpty reFillerFile (pyStrip t))

/-- First matching `(intent, pattern)` in table order, with its groups. -/
def firstPatternMatch (s : String) : Option (String × List (Option String)) :=
  intent_patterns.findSome? (fun ip =>
    ip.2.findSome? (fun p =>
      (reSearch p.re s).map (fun caps => (ip.1, groupsOf p.ngroups caps))))

/-- `content_match.group(1) or group(2) or group(3)`: the first group
that is neither `None` nor empty. -/
def firstContentGroup (gs : List (Option String)) : Option String :=
  gs.findSome? (fun g => match g with
    | some t => if t ≠ "" then some t else none
    | none => none)

/-- The `(intent, params)` built after a winning pattern match: reverse
group scan, cleanup, and secondary content extraction for `create_file`. -/
def classify_result (s : String) (intent : String)
    (groups : List (Option String)) : String × Params :=
  let target := (raw_target groups).map cleanTarget
  let params : Params :=
    [("target", match target with | some t => .vStr t | none => .vNone)]
  let params :=
    if intent = "create_file" then
      match reSearch reContent.re s with
      | some caps =>
        params ++ [("content",
          match firstContentGroup (groupsOf 3 caps) with
          | some c => .vStr c
          | none => .vNone)]
      | none => params
    else params
  (intent, params)

/-- The `_analyze_fallback_keywords` triples, in declaration order. -/
def fallbackTriples : List (List String × List String × String) :=
  [(["файл", "file"], ["создай", "create", "новый"], "create_file"),
   (["папка", "folder", "директория", "directory"],
      ["создай", "create", "новая"], "create_directory"),
   (["читай", "read", "покажи", "show", "открой"], [], "read_file"),
   (["удали", "delete", "убери", "remove"], [], "delete_file"),
   (["список", "файлы", "содержимое", "ls", "dir"], [], "list_directory")]

/-- Whether a fallback triple fires on the utterance. -/
def tripleFires (t : List String × List String × String) (s : String) : Bool :=
  (t.1.any (fun w => isSubstr w s)) &&
  (t.2.1.isEmpty || t.2.1.any (fun w => isSubstr w s))

/-- `_analyze_fallback_keywords`: first matching triple wins, params
`{'target': None}`. -/
def fallback_keywords (s : String) : Option (String × Params) :=
  fallbackTriples.findSome? (fun t =>
    if tripleFires t s then some (t.2.2, [("target", .vNone)]) else none)

/-- `analyze_intent`: normalize, try the context-reference resolver,
then the pattern table, then fallback keywords, else `general`. -/
def analyze_intent (cm : ContextMemory) (user_input : String) :
    Except String (String × Params) :=
  let s := pyStrip (pyLower user_input)
  if is_context_reference cm s then handle_context_reference cm s
  else
    match firstPatternMatch s with
    | some ig => pure (classify_result s ig.1 ig.2)
    | none =>
      match fallback_keywords s with
      | some r => pure r
      | none => pure ("general", [])

/-! ## The retry wrappers (decorators.py)

An attempt of the wrapped single-call operation is modelled by
`op : Nat → Except String α` (attempt index to raised error text or
returned value); an attempt of the wrapped async generator by
`op : Nat → List α × Option String` (items yielded before either natural
exhaustion (`none`) or an error (`some e`)).  A run is summarized by its
outcome and the list of performed sleep durations; for the generator
the full consumer-visible event sequence is recorded. -/

/-- `"429" in error_text or "ResourceExhausted" in error_text`. -/
def isRateLimit (e : String) : Bool :=
  isSubstr "429" e || isSubstr "ResourceExhausted" e

/-- Digit string to `Nat` (`int(m.group(1))` on a `\d+` capture). -/
def strToNat (s : String) : Nat :=
  s.data.foldl (fun a c => a * 10 + (c.toNat - 48)) 0

/-- The `retry_delay { seconds: N }` extraction of decorators.py. -/
def findRetryDelay (e : String) : Option Nat :=
  (reSearch reRetryDelay e).bind (fun caps => (capLookup caps 1).map strToNat)

/-- `wait_time = retry_secs if retry_secs else delay` (note Python
truthiness: a parsed `0` falls back to the base delay). -/
def waitTime (e : String) (delay : ℚ) : ℚ :=
  match findRetryDelay e with
  | some n => if n ≠ 0 then (n : ℚ) else delay
  | none => delay

/-- One run of the `retry_on_failure` loop.  The fuel is the number of
attempts still allowed (the last attempt has fuel `1`); Python's
fall-through `return None` on a zero-attempt budget is `.ok none`. -/
def retryAux {α : Type} (op : Nat → Except String α) (delay : ℚ) :
    Nat → Nat → Option String → Except String (Option α) × List ℚ
  | _, 0, lastE =>
    (match lastE with | some e => .error e | none => .ok none, [])
  | attempt, fuel + 1, _ =>
    match op attempt with
    | .ok v => (.ok (some v), [])
    | .error e =>
      if isRateLimit e then
        let rec_ := retryAux op delay (attempt + 1) fuel (some e)
        (rec_.1, waitTime e delay :: rec_.2)
      else if fuel ≠ 0 then
        let rec_ := retryAux op delay (attempt + 1) fuel (some e)
        (rec_.1, delay :: rec_.2)
      else (.error e, [])

/-- `retry_on_failure(max_retries, delay)` applied to `op`: outcome and
sleep trace. -/
def retry_on_failure {α : Type} (op : Nat → Except String α)
    (max_retries : Nat) (delay : ℚ) : Except String (Option α) × List ℚ :=
  retryAux op delay 0 max_retries none

/-- A consumer-visible event of the wrapped async generator: an item
yielded to the consumer, or an exception surfaced to it. -/
inductive GenEvent (α : Type) : Type where
  | item (a : α)
  | raised (e : String)
deriving DecidableEq, Repr

/-- One run of the `retry_on_failure_async_gen` loop: the event sequence
seen by the consumer and the sleep trace.  Every attempt re-invokes the
generator from the top, so its items are yielded (again) before its
outcome is inspected. -/
def genRetryAux {α : Type} (op : Nat → List α × Option String) (delay : ℚ) :
    Nat → Nat → Option String → List (GenEvent α) × List ℚ
  | _, 0, lastE =>
    (match lastE with | some e => [.raised e] | none => [], [])
  | attempt, fuel + 1, _ =>
    let att := op attempt
    let itemEvents := att.1.map GenEvent.item
    match att.2 with
    | none => (itemEvents, [])
    | some e =>
      if isRateLimit e then
        let rec_ := genRetryAux op delay (attempt + 1) fuel (some e)
        (itemEvents ++ rec_.1, waitTime e delay :: rec_.2)
      else if fuel ≠ 0 then
        let rec_ := genRetryAux op delay (attempt + 1) fuel (some e)
        (itemEvents ++ rec_.1, delay :: rec_.2)
      else (itemEvents ++ [.raised e], [])

/-- `retry_on_failure_async_gen(max_retries, delay)` applied to `op`. -/
def retry_on_failure_async_gen {α : Type} (op : Nat → List α × Option String)
    (max_retries : Nat) (delay : ℚ) : List (GenEvent α) × List ℚ :=
  genRetryAux op delay 0 max_retries none

/-! ## Helper lemmas -/

lemma exc_bind_ok {α β : Type} (a : α) (f : α → Except String β) :
    (Except.ok a : Except String α) >>= f = f a := rfl

lemma exc_pure {α : Type} (a : α) :
    (pure a : Except String α) = Except.ok a := rfl

/-- No mutator of `context_memory` ever writes `last_suggestions`, so it
is absent in every reachable state. -/
lemma reachable_suggestions_none (cm : ContextMemory) (h : Reachable cm) :
    cm.last_suggestions = none := by
  induction h with
  | init => rfl
  | update cm intent params response _ ih =>
    simpa [update_context_memory] using ih
  | clear cm _ => rfl

/-! ## Claim C6 -/

/-- C6 counterexample: one `update_context_memory` on the empty memory
yields a reachable state in which `last_intent`, `last_params`,
`last_response` are present but `last_suggestions` is absent — the
ContextEntry is neither fully empty nor fully populated. -/
theorem c6_partial_entry_counterexample :
    Reachable (update_context_memory emptyCM "delete_file"
      [("target", PVal.vStr "a.txt")] PVal.vNone) ∧
    ¬(((update_context_memory emptyCM "delete_file"
          [("target", PVal.vStr "a.txt")] PVal.vNone).last_intent = none ∧
       (update_context_memory emptyCM "delete_file"
          [("target", PVal.vStr "a.txt")] PVal.vNone).last_params = none ∧
       (update_context_memory emptyCM "delete_file"
          [("target", PVal.vStr "a.txt")] PVal.vNone).last_suggestions = none ∧
       (update_context_memory emptyCM "delete_file"
          [("target", PVal.vStr "a.txt")] PVal.vNone).last_response = none) ∨
      ((update_context_memory emptyCM "delete_file"
          [("target", PVal.vStr "a.txt")] PVal.vNone).last_intent ≠ none ∧
       (update_context_memory emptyCM "delete_file"
          [("target", PVal.vStr "a.txt")] PVal.vNone).last_params ≠ none ∧
       (update_context_memory emptyCM "delete_file"
          [("target", PVal.vStr "a.txt")] PVal.vNone).last_suggestions ≠ none ∧
       (update_context_memory emptyCM "delete_file"
          [("target", PVal.vStr "a.txt")] PVal.vNone).last_response ≠ none)) :=
  ⟨Reachable.update _ _ _ _ Reachable.init, by decide⟩

/-- C6 (amended): in every reachable context-memory state the entry is
either fully empty, or `last_intent`, `last_params`, `last_response` are
present while `last_suggestions` is absent (the update path never writes
it). -/
theorem c6_context_entry_shape (cm : ContextMemory) (h : Reachable cm) :
    (cm.last_intent = none ∧ cm.last_params = none ∧
      cm.last_suggestions = none ∧ cm.last_response = none) ∨
    (cm.last_intent ≠ none ∧ cm.last_params ≠ none ∧
      cm.last_response ≠ none ∧ cm.last_suggestions = none) := by
  induction h with
  | init => exact Or.inl ⟨rfl, rfl, rfl, rfl⟩
  | update cm intent params response hr ih =>
    refine Or.inr ⟨by simp [update_context_memory], by simp [update_context_memory],
      by simp [update_context_memory], ?_⟩
    simpa [update_context_memory] using reachable_suggestions_none cm hr
  | clear cm _ => exact Or.inl ⟨rfl, rfl, rfl, rfl⟩

/-- C6 witness: the amended shape invariant, instantiated at the state
reached by a single update from the empty memory. -/
theorem c6_context_entry_shape_witness :
    ((update_context_memory emptyCM "delete_file"
        [("target", PVal.vStr "a.txt")] PVal.vNone).last_intent = none ∧
     (update_context_memory emptyCM "delete_file"
        [("target", PVal.vStr "a.txt")] PVal.vNone).last_params = none ∧
     (update_context_memory emptyCM "delete_file"
        [("target", PVal.vStr "a.txt")] PVal.vNone).last_suggestions = none ∧
     (update_context_memory emptyCM "delete_file"
        [("target", PVal.vStr "a.txt")] PVal.vNone).last_response = none) ∨
    ((update_context_memory emptyCM "delete_file"
        [("target", PVal.vStr "a.txt")] PVal.vNone).last_intent ≠ none ∧
     (update_context_memory emptyCM "delete_file"
        [("target", PVal.vStr "a.txt")] PVal.vNone).last_params ≠ none ∧
     (update_context_memory emptyCM "delete_file"
        [("target", PVal.vStr "a.txt")] PVal.vNone).last_response ≠ none ∧
     (update_context_memory emptyCM "delete_file"
        [("target", PVal.vStr "a.txt")] PVal.vNone).last_suggestions = none) :=
  c6_context_entry_shape _ (Reachable.update _ _ _ _ Reachable.init)

/-! ## Claim C10 -/

/-- C10: in every reachable context-memory state the key
`last_suggestions` is absent, so each of the numeric inputs `"1"`…`"5"`
resolves to `('general', {context_reference: True, original_input: s})`
and never to one of the derived `move_file`/`write_file` actions. -/
theorem c10_numeric_refs_always_general (cm : ContextMemory)
    (h : Reachable cm) :
    cm.last_suggestions = none ∧
    ∀ s, s ∈ (["1", "2", "3", "4", "5"] : List String) →
      analyze_intent cm s = .ok ("general",
        [("context_reference", .vBool true), ("original_input", .vStr s)]) := by
  have hsug := reachable_suggestions_none cm h
  refine ⟨hsug, ?_⟩
  intro s hs
  obtain ⟨li, lp, lsug, r⟩ := cm
  simp only at hsug
  subst hsug
  fin_cases hs <;>
    simp [analyze_intent, is_context_reference, handle_context_reference,
      pyIntE, exc_bind_ok, exc_pure, pyStrip, pyLower, pyLowerChar, pySpace,
      isSubstr, isSubstrAux, contextKeywords, strTruthy]

/-- C10 witness: the freshly constructed analyzer maps `"1"` to the
ambiguous-follow-up marker result. -/
theorem c10_numeric_refs_always_general_witness :
    emptyCM.last_suggestions = none ∧
    analyze_intent emptyCM "1" = .ok ("general",
      [("context_reference", .vBool true), ("original_input", .vStr "1")]) :=
  ⟨(c10_numeric_refs_always_general emptyCM Reachable.init).1,
   (c10_numeric_refs_always_general emptyCM Reachable.init).2 "1" (by decide)⟩

/-! ## Claim C3 -/

/-- An error text carrying both a rate-limit marker and a structured
`retry_delay { seconds: 5 }` hint. -/
def c3_err : String := "429 ResourceExhausted: retry_delay { seconds: 5 }"

/-- An operation failing with `c3_err` on its first two invocations and
succeeding on the third. -/
def c3_op : Nat → Except String Nat :=
  fun n => if n < 2 then .error c3_err else .ok 42

/-- C3 counterexample: with `max_retries = 2` and two rate-limited
failures the wrapper sleeps 5 s after EACH failure — twice, not once —
before propagating the captured error (a rate-limit failure sleeps even
on the final attempt). -/
theorem c3_sleep_once_counterexample :
    retry_on_failure c3_op 2 1 = (.error c3_err, [5, 5]) ∧
    (retry_on_failure c3_op 2 1).2.length ≠ 1 := by
  constructor <;> decide

/-- C3 (amended): for an operation raising a rate-limited error with a
derived 5-second hint on its first two invocations and succeeding on the
third, `max_retries = 3` sleeps 5 s twice and returns the value;
`max_retries = 2` sleeps 5 s twice (once after each rate-limited
failure, including the final attempt) and propagates the captured
error. -/
theorem c3_retry_backoff {α : Type} (op : Nat → Except String α)
    (delay : ℚ) (e₀ e₁ : String) (v : α)
    (h0 : op 0 = .error e₀) (h1 : op 1 = .error e₁) (h2 : op 2 = .ok v)
    (hr0 : isRateLimit e₀ = true) (hr1 : isRateLimit e₁ = true)
    (hd0 : findRetryDelay e₀ = some 5) (hd1 : findRetryDelay e₁ = some 5) :
    retry_on_failure op 3 delay = (.ok (some v), [5, 5]) ∧
    retry_on_failure op 2 delay = (.error e₁, [5, 5]) := by
  constructor <;>
    simp [retry_on_failure, retryAux, h0, h1, h2, hr0, hr1, waitTime, hd0, hd1]

/-- C3 witness: the amended behaviour at the concrete operation. -/
theorem c3_retry_backoff_witness :
    retry_on_failure c3_op 3 1 = (.ok (some 42), [5, 5]) ∧
    retry_on_failure c3_op 2 1 = (.error c3_err, [5, 5]) :=
  c3_retry_backoff c3_op 1 c3_err c3_err 42 (by decide) (by decide) (by decide)
    (by decide) (by decide) (by decide) (by decide)

/-! ## Claim C4 -/

/-- When every allowed attempt fails, `retry_on_failure` ends with the
last captured error; it sleeps after every failure except a
non-rate-limited failure on the final attempt. -/
lemma retryAux_allfail {α : Type} (op : Nat → Except String α)
    (errs : Nat → String) (delay : ℚ) :
    ∀ fuel attempt lastE, 1 ≤ fuel →
    (∀ i, i < fuel → op (attempt + i) = .error (errs (attempt + i))) →
    (retryAux op delay attempt fuel lastE).1 = .error (errs (attempt + fuel - 1)) ∧
    (retryAux op delay attempt fuel lastE).2.length =
      (if isRateLimit (errs (attempt + fuel - 1)) = true then fuel else fuel - 1) := by
  intro fuel
  induction fuel with
  | zero => intro attempt lastE h; exact absurd h (by omega)
  | succ k ih =>
    intro attempt lastE _ hfail
    have h0 : op attempt = .error (errs attempt) := by
      simpa using hfail 0 (Nat.succ_pos k)
    have eidx : attempt + (k + 1) - 1 = attempt + k := by omega
    rw [eidx]
    by_cases hk : k = 0
    · subst hk
      by_cases hrl : isRateLimit (errs attempt) = true <;>
        simp [retryAux, h0, hrl]
    · have hk1 : 1 ≤ k := Nat.one_le_iff_ne_zero.mpr hk
      have hfail2 : ∀ i, i < k →
          op (attempt + 1 + i) = .error (errs (attempt + 1 + i)) := by
        intro i hi
        have h := hfail (i + 1) (by omega)
        have e : attempt + (i + 1) = attempt + 1 + i := by omega
        rwa [e] at h
      have ih2 := ih (attempt + 1) (some (errs attempt)) hk1 hfail2
      have eidx2 : attempt + 1 + k - 1 = attempt + k := by omega
      rw [eidx2] at ih2
      by_cases hrl : isRateLimit (errs attempt) = true
      · refine ⟨by simp [retryAux, h0, hrl, ih2.1], ?_⟩
        simp only [retryAux, h0, hrl, if_true]
        simp [ih2.2]
        split <;> omega
      · refine ⟨by simp [retryAux, h0, hrl, hk, ih2.1], ?_⟩
        simp only [retryAux, h0, hrl, if_false]
        simp [hk, ih2.2]
        split <;> omega

/-- C4: whenever every allowed attempt of the wrapped operation fails,
the wrapper propagates the last captured error (it never returns
normally), and if the failure on the final attempt carries a rate-limit
signature the wrapper has slept once per attempt — including after the
final failure — before propagating. -/
theorem c4_rate_limit_final_sleep {α : Type} (op : Nat → Except String α)
    (errs : Nat → String) (max_retries : Nat) (delay : ℚ)
    (hpos : 1 ≤ max_retries)
    (hfail : ∀ i, i < max_retries → op i = .error (errs i)) :
    (retry_on_failure op max_retries delay).1 = .error (errs (max_retries - 1)) ∧
    (isRateLimit (errs (max_retries - 1)) = true →
      (retry_on_failure op max_retries delay).2.length = max_retries) := by
  have h := retryAux_allfail op errs delay max_retries 0 none hpos
    (by simpa using hfail)
  rw [Nat.zero_add] at h
  exact ⟨h.1, fun hrl => by rw [retry_on_failure, h.2, if_pos hrl]⟩

/-- C4 witness: a single rate-limited attempt — the wrapper sleeps once
and then surfaces the error. -/
theorem c4_rate_limit_final_sleep_witness :
    (retry_on_failure (fun _ => (.error "429" : Except String Nat)) 1 1).1 =
      .error "429" ∧
    (retry_on_failure (fun _ => (.error "429" : Except String Nat)) 1 1).2.length = 1 :=
  ⟨(c4_rate_limit_final_sleep (fun _ => .error "429") (fun _ => "429") 1 1
      (by decide) (fun _ _ => rfl)).1,
   (c4_rate_limit_final_sleep (fun _ => .error "429") (fun _ => "429") 1 1
      (by decide) (fun _ _ => rfl)).2 (by decide)⟩

/-! ## Claim C5 -/

/-- Does the event surface an exception to the consumer? -/
def isRaisedEv {α : Type} : GenEvent α → Bool
  | .raised _ => true
  | .item _ => false

lemma filter_item_events_nil {α : Type} (l : List α) :
    (l.map GenEvent.item).filter isRaisedEv = [] := by
  induction l with
  | nil => rfl
  | cons a l ih => simp [isRaisedEv, ih]

lemma filter_item_join_nil {α : Type} (ns : List Nat) (f : Nat → List α) :
    ((ns.map (fun i => (f i).map GenEvent.item)).flatten.filter isRaisedEv) = [] := by
  induction ns with
  | nil => rfl
  | cons n ns ih => simp [List.filter_append, filter_item_events_nil, ih]

/-- When every allowed attempt of the wrapped generator fails, the
consumer sees each attempt's items in order (the sequence restarted from
the top on every retry) followed by a single raised exception carrying
the last captured error. -/
lemma genRetryAux_allfail {α : Type} (op : Nat → List α × Option String)
    (items : Nat → List α) (errs : Nat → String) (delay : ℚ) :
    ∀ fuel attempt lastE, 1 ≤ fuel →
    (∀ i, i < fuel → op (attempt + i) = (items (attempt + i), some (errs (attempt + i)))) →
    (genRetryAux op delay attempt fuel lastE).1 =
      ((List.range fuel).map (fun i => (items (attempt + i)).map GenEvent.item)).flatten ++
        [.raised (errs (attempt + fuel - 1))] := by
  intro fuel
  induction fuel with
  | zero => intro attempt lastE h; exact absurd h (by omega)
  | succ k ih =>
    intro attempt lastE _ hfail
    have h0 : op attempt = (items attempt, some (errs attempt)) := by
      simpa using hfail 0 (Nat.succ_pos k)
    have eidx : attempt + (k + 1) - 1 = attempt + k := by omega
    rw [eidx]
    have hshift : ∀ i : Nat, attempt + (i + 1) = attempt + 1 + i := fun i => by omega
    have hmap : (List.range k).map
          ((fun i => (items (attempt + i)).map GenEvent.item) ∘ Nat.succ) =
        (List.range k).map
          (fun i => (items (attempt + 1 + i)).map GenEvent.item) := by
      refine List.map_congr_left ?_
      intro i _
      simp only [Function.comp_apply, Nat.succ_eq_add_one]
      rw [hshift i]
    have hrange : ((List.range (k + 1)).map
          (fun i => (items (attempt + i)).map GenEvent.item)).flatten =
        (items attempt).map GenEvent.item ++
          ((List.range k).map
            (fun i => (items (attempt + 1 + i)).map GenEvent.item)).flatten := by
      rw [List.range_succ_eq_map, List.map_cons, List.map_map, hmap,
        List.flatten_cons, Nat.add_zero]
    rw [hrange]
    by_cases hk : k = 0
    · subst hk
      by_cases hrl : isRateLimit (errs attempt) = true <;>
        simp [genRetryAux, h0, hrl]
    · have hk1 : 1 ≤ k := Nat.one_le_iff_ne_zero.mpr hk
      have hfail2 : ∀ i, i < k →
          op (attempt + 1 + i) = (items (attempt + 1 + i), some (errs (attempt + 1 + i))) := by
        intro i hi
        have h := hfail (i + 1) (by omega)
        rwa [hshift i] at h
      have ih2 := ih (attempt + 1) (some (errs attempt)) hk1 hfail2
      have eidx2 : attempt + 1 + k - 1 = attempt + k := by omega
      rw [eidx2] at ih2
      by_cases hrl : isRateLimit (errs attempt) = true <;>
        simp [genRetryAux, h0, hrl, hk, ih2]

/-- The error of the failed first generator attempt. -/
def c5_err : String := "429 ResourceExhausted: retry_delay { seconds: 5 }"

/-- A generator yielding one item then failing rate-limited on its first
invocation, and yielding two items then completing on a retry. -/
def c5_op : Nat → List Nat × Option String :=
  fun n => if n = 0 then ([0], some c5_err) else ([0, 1], none)

/-- C5 counterexample: the element `0`, already yielded to the consumer
by the failed first attempt, is emitted a second time when the retry
restarts the generator from the top — the consumer sees it twice. -/
theorem c5_duplicate_emission_counterexample :
    retry_on_failure_async_gen c5_op 2 1 =
      ([.item 0, .item 0, .item 1], [5]) ∧
    (retry_on_failure_async_gen c5_op 2 1).1.count (GenEvent.item 0) = 2 := by
  constructor <;> decide

/-- C5 (amended): when every attempt of the wrapped generator fails, the
last captured error is surfaced to the consumer exactly once (it is the
only raised event), but the items already yielded by each failed partial
attempt ARE emitted again on every retry, since each retry restarts the
underlying sequence from the top. -/
theorem c5_stream_exhaustion {α : Type} (op : Nat → List α × Option String)
    (items : Nat → List α) (errs : Nat → String) (max_retries : Nat) (delay : ℚ)
    (hpos : 1 ≤ max_retries)
    (hfail : ∀ i, i < max_retries → op i = (items i, some (errs i))) :
    (retry_on_failure_async_gen op max_retries delay).1 =
      ((List.range max_retries).map
        (fun i => (items i).map GenEvent.item)).flatten ++
        [.raised (errs (max_retries - 1))] ∧
    (retry_on_failure_async_gen op max_retries delay).1.filter isRaisedEv =
      [.raised (errs (max_retries - 1))] := by
  have h := genRetryAux_allfail op items errs delay max_retries 0 none hpos
    (by simpa using hfail)
  simp only [Nat.zero_add] at h
  refine ⟨h, ?_⟩
  show (genRetryAux op delay 0 max_retries none).1.filter isRaisedEv = _
  rw [h, List.filter_append, filter_item_join_nil]
  simp [isRaisedEv]

/-- C5 witness: two failing attempts of a generator that yields `7`
before dying — the consumer sees `7` twice and the error once. -/
theorem c5_stream_exhaustion_witness :
    (retry_on_failure_async_gen (fun _ => (([7], some "boom") : List Nat × Option String)) 2 1).1 =
      ((List.range 2).map
        (fun i => ((fun _ => [7]) i).map GenEvent.item)).flatten ++
        [.raised ((fun _ => "boom") (2 - 1))] ∧
    (retry_on_failure_async_gen (fun _ => (([7], some "boom") : List Nat × Option String)) 2 1).1.filter isRaisedEv =
      [.raised ((fun _ => "boom") (2 - 1))] :=
  c5_stream_exhaustion (fun _ => ([7], some "boom")) (fun _ => [7])
    (fun _ => "boom") 2 1 (by decide) (fun _ _ => rfl)

/-! ## Claim C1 -/

lemma pyNorm1 : pyStrip (pyLower "1") = "1" := rfl

lemma pyNorm2 : pyStrip (pyLower "2") = "2" := rfl

lemma pyNorm3 : pyStrip (pyLower "3") = "3" := rfl

lemma pyIntE1 : pyIntE "1" = .ok 1 := rfl

lemma pyIntE2 : pyIntE "2" = .ok 2 := rfl

lemma pyIntE3 : pyIntE "3" = .ok 3 := rfl

lemma icr1 (cm : ContextMemory) : is_context_reference cm "1" = true := rfl

lemma icr2 (cm : ContextMemory) : is_context_reference cm "2" = true := rfl

lemma icr3 (cm : ContextMemory) : is_context_reference cm "3" = true := rfl

/-- C1: whenever the remembered turn is a `delete_file` with a recorded
target `t` and a non-empty suggestion list, the numeric follow-ups
`"1"`, `"2"`, `"3"` resolve to the derived rename-to-backup,
move-to-delete-folder and clear-content actions on `t`. -/
theorem c1_numeric_delete_options (cm : ContextMemory) (t : PVal)
    (lp : Params) (ls : List PVal)
    (hli : cm.last_intent = some "delete_file")
    (hlp : cm.last_params = some lp)
    (ht : pget lp "target" = some t)
    (hls : cm.last_suggestions = some ls) (hne : ls ≠ []) :
    analyze_intent cm "1" = .ok ("move_file",
      [("target", t), ("action", .vStr "rename_to_backup"),
       ("context_action", .vStr "rename_for_deletion")]) ∧
    analyze_intent cm "2" = .ok ("move_file",
      [("target", t), ("action", .vStr "move_to_delete_folder"),
       ("context_action", .vStr "move_for_deletion")]) ∧
    analyze_intent cm "3" = .ok ("write_file",
      [("target", t), ("content", .vStr ""),
       ("context_action", .vStr "clear_content")]) := by
  refine ⟨?_, ?_, ?_⟩ <;>
    norm_num [analyze_intent, handle_context_reference,
      pyNorm1, pyNorm2, pyNorm3, icr1, icr2, icr3, pyIntE1, pyIntE2, pyIntE3,
      exc_bind_ok, exc_pure, hli, hlp, hls, hne, ht]

/-- C1 witness: the three resolutions at a concrete populated memory. -/
theorem c1_numeric_delete_options_witness :
    analyze_intent ⟨some "delete_file", some [("target", .vStr "a.txt")],
        some [.vStr "x", .vStr "y", .vStr "z"], some .vNone⟩ "1" =
      .ok ("move_file",
        [("target", .vStr "a.txt"), ("action", .vStr "rename_to_backup"),
         ("context_action", .vStr "rename_for_deletion")]) ∧
    analyze_intent ⟨some "delete_file", some [("target", .vStr "a.txt")],
        some [.vStr "x", .vStr "y", .vStr "z"], some .vNone⟩ "2" =
      .ok ("move_file",
        [("target", .vStr "a.txt"), ("action", .vStr "move_to_delete_folder"),
         ("context_action", .vStr "move_for_deletion")]) ∧
    analyze_intent ⟨some "delete_file", some [("target", .vStr "a.txt")],
        some [.vStr "x", .vStr "y", .vStr "z"], some .vNone⟩ "3" =
      .ok ("write_file",
        [("target", .vStr "a.txt"), ("content", .vStr ""),
         ("context_action", .vStr "clear_content")]) :=
  c1_numeric_delete_options _ (.vStr "a.txt") [("target", .vStr "a.txt")]
    [.vStr "x", .vStr "y", .vStr "z"] rfl rfl (by decide) rfl (by decide)

/-! ## Claim C2 -/

/-- The intent component of an analyzer result. -/
def intentOf : Except String (String × Params) → Option String
  | .ok ip => some ip.1
  | .error _ => none

/-- C2: an utterance that is not detected as a context reference and
whose normalized form matches both the `refactor_file` pattern and the
`read_file` pattern resolves to `refactor_file` — the first intent in
table-declaration order — never `read_file`. -/
theorem c2_refactor_precedes_read (cm : ContextMemory) (input : String)
    (href : is_context_reference cm (pyStrip (pyLower input)) = false)
    (hrf : (reSearch reRefactor.re (pyStrip (pyLower input))).isSome = true)
    (hrd : (reSearch reReadFile.re (pyStrip (pyLower input))).isSome = true) :
    intentOf (analyze_intent cm input) = some "refactor_file" := by
  obtain ⟨caps, hc⟩ := Option.isSome_iff_exists.mp hrf
  simp [analyze_intent, href, firstPatternMatch, intent_patterns,
    List.findSome?, hc, classify_result, intentOf, exc_pure]

/-- C2 witness: an utterance matched by both the refactor and the read
patterns classifies as `refactor_file`. -/
theorem c2_refactor_precedes_read_witness :
    intentOf (analyze_intent emptyCM "исправь покажи в файле a.txt") =
      some "refactor_file" :=
  c2_refactor_precedes_read emptyCM "исправь покажи в файле a.txt"
    (by decide) (by decide) (by decide)

/-! ## Claim C7 -/

/-- C7 counterexample: the bare utterance `"удали"` contains `"удали"`,
matches no intent pattern, and carries no other structured signal, yet
`analyze_intent` does NOT return `delete_file`: the substring check
`'да' in 'удали'` succeeds, so the short utterance is captured as a
context reference and resolved to the ambiguous-follow-up marker. -/
theorem c7_udali_counterexample :
    isSubstr "удали" "удали" = true ∧
    firstPatternMatch "удали" = none ∧
    analyze_intent emptyCM "удали" = .ok ("general",
      [("context_reference", .vBool true), ("original_input", .vStr "удали")]) ∧
    intentOf (analyze_intent emptyCM "удали") ≠ some "delete_file" := by
  refine ⟨?_, ?_, ?_, ?_⟩ <;> decide

/-- C7 (amended): an utterance containing `"удали"` that matches none of
the intent patterns, is NOT detected as a context reference, and does
not fire one of the three earlier fallback keyword triples, resolves
through the fallback keyword path to `delete_file` with target `None`. -/
theorem c7_udali_fallback (cm : ContextMemory) (input : String)
    (href : is_context_reference cm (pyStrip (pyLower input)) = false)
    (hpat : firstPatternMatch (pyStrip (pyLower input)) = none)
    (hud : isSubstr "удали" (pyStrip (pyLower input)) = true)
    (h1 : tripleFires (["файл", "file"], ["создай", "create", "новый"],
      "create_file") (pyStrip (pyLower input)) = false)
    (h2 : tripleFires (["папка", "folder", "директория", "directory"],
      ["создай", "create", "новая"], "create_directory")
      (pyStrip (pyLower input)) = false)
    (h3 : tripleFires (["читай", "read", "покажи", "show", "открой"], [],
      "read_file") (pyStrip (pyLower input)) = false) :
    analyze_intent cm input = .ok ("delete_file", [("target", .vNone)]) := by
  have h4 : tripleFires (["удали", "delete", "убери", "remove"], [],
      "delete_file") (pyStrip (pyLower input)) = true := by
    simp [tripleFires, hud]
  simp [analyze_intent, href, hpat, fallback_keywords, fallbackTriples,
    List.findSome?, h1, h2, h3, h4, exc_pure]

/-- C7 witness: `"удали."` (the trailing dot defeats the
context-reference capture) falls through to the keyword path. -/
theorem c7_udali_fallback_witness :
    analyze_intent emptyCM "удали." = .ok ("delete_file", [("target", .vNone)]) :=
  c7_udali_fallback emptyCM "удали." (by decide) (by decide) (by decide)
    (by decide) (by decide) (by decide)

/-! ## Claim C8 -/

lemma exc_bind_ok_of {α β : Type} (x : Except String α)
    (f : α → Except String β) (hx : ∃ a, x = .ok a)
    (hf : ∀ a, ∃ r, f a = .ok r) : ∃ r, (x >>= f) = .ok r := by
  obtain ⟨a, ha⟩ := hx
  subst ha
  exact hf a

lemma ite_exc_ok {β : Type} (c : Prop) [Decidable c] (t e : Except String β)
    (ht : c → ∃ r, t = .ok r) (he : ∃ r, e = .ok r) :
    ∃ r, (if c then t else e) = .ok r := by
  by_cases h : c
  · rw [if_pos h]; exact ht h
  · rw [if_neg h]; exact he

lemma pyIntE4 : pyIntE "4" = .ok 4 := rfl

lemma pyIntE5 : pyIntE "5" = .ok 5 := rfl

/-- The guarded `int()` conversion is the only fallible step of
`_handle_context_reference`, and every input reaching it is one of the
digit strings, so the resolver never raises. -/
lemma handle_ok (cm : ContextMemory) (s : String) :
    ∃ r, handle_context_reference cm s = .ok r := by
  unfold handle_context_reference
  by_cases hg : s = "1" ∨ s = "2" ∨ s = "3" ∨ s = "4" ∨ s = "5"
  · rcases hg with h | h | h | h | h
    · subst h; rw [if_pos (Or.inl rfl)]
      simp only [pyIntE1, exc_bind_ok]
      repeat' first | exact ⟨_, rfl⟩ | split
    · subst h; rw [if_pos (Or.inr (Or.inl rfl))]
      simp only [pyIntE2, exc_bind_ok]
      repeat' first | exact ⟨_, rfl⟩ | split
    · subst h; rw [if_pos (Or.inr (Or.inr (Or.inl rfl)))]
      simp only [pyIntE3, exc_bind_ok]
      repeat' first | exact ⟨_, rfl⟩ | split
    · subst h; rw [if_pos (Or.inr (Or.inr (Or.inr (Or.inl rfl))))]
      simp only [pyIntE4, exc_bind_ok]
      repeat' first | exact ⟨_, rfl⟩ | split
    · subst h; rw [if_pos (Or.inr (Or.inr (Or.inr (Or.inr rfl))))]
      simp only [pyIntE5, exc_bind_ok]
      repeat' first | exact ⟨_, rfl⟩ | split
  · rw [if_neg hg]
    simp only [exc_bind_ok, exc_pure]
    repeat' first | exact ⟨_, rfl⟩ | split

/-- C8: `analyze_intent` is total — for every context-memory state and
every input string (including empty or malformed text) it returns an
`(intent, params)` pair and never raises; when no resolver, pattern or
fallback triple matches, the result is `('general', {})`. -/
theorem c8_never_raises (cm : ContextMemory) (input : String) :
    (∃ r, analyze_intent cm input = .ok r) ∧
    (is_context_reference cm (pyStrip (pyLower input)) = false →
      firstPatternMatch (pyStrip (pyLower input)) = none →
      fallback_keywords (pyStrip (pyLower input)) = none →
      analyze_intent cm input = .ok ("general", [])) := by
  constructor
  · unfold analyze_intent
    by_cases h : is_context_reference cm (pyStrip (pyLower input)) = true
    · simp only [h, if_true]
      exact handle_ok cm _
    · have h2 : is_context_reference cm (pyStrip (pyLower input)) = false := by
        simpa using h
      simp only [h2, Bool.false_eq_true, if_false]
      repeat' first | exact ⟨_, rfl⟩ | split
  · intro h1 h2 h3
    simp [analyze_intent, h1, h2, h3, exc_pure]

/-- C8 witness: the empty string resolves without an exception, to the
`general` intent with empty parameters. -/
theorem c8_never_raises_witness :
    (∃ r, analyze_intent emptyCM "" = .ok r) ∧
    analyze_intent emptyCM "" = .ok ("general", []) :=
  ⟨(c8_never_raises emptyCM "").1,
   (c8_never_raises emptyCM "").2 (by decide) (by decide) (by decide)⟩

/-! ## Claim C9 -/

lemma pget_target_head (x : PVal) (rest : Params) :
    pget (("target", x) :: rest) "target" = some x := by
  simp [pget, List.find?]

/-- C9 counterexample: on `"ls"` the winning pattern
`(?:ls|dir)\s*([^\s]*)` has one capture group, which captured the EMPTY
string; the code still extracts it (its reverse scan skips only `None`
groups, not empty ones), publishing target `""` — so the extracted
target is not a non-empty captured group, and not absent either. -/
theorem c9_empty_group_counterexample :
    firstPatternMatch "ls" = some ("list_directory", [some ""]) ∧
    analyze_intent emptyCM "ls" = .ok ("list_directory", [("target", .vStr "")]) := by
  constructor <;> decide

/-- C9 (amended): for every utterance that is not a context reference
and whose winning pattern has capture groups, the extracted target
before cleanup is the first non-`None` captured group when the groups
are scanned in reverse order (`raw_target`), and the published target is
its cleanup; when the winning pattern has no capture groups the target
is `None`. -/
theorem c9_reverse_scan_target (cm : ContextMemory) (input : String)
    (intent : String) (groups : List (Option String))
    (href : is_context_reference cm (pyStrip (pyLower input)) = false)
    (hm : firstPatternMatch (pyStrip (pyLower input)) = some (intent, groups)) :
    ∃ ps, analyze_intent cm input = .ok (intent, ps) ∧
      pget ps "target" =
        some (match (raw_target groups).map cleanTarget with
          | some t => .vStr t
          | none => .vNone) := by
  refine ⟨(classify_result (pyStrip (pyLower input)) intent groups).2, ?_, ?_⟩
  · simp [analyze_intent, href, hm, exc_pure, classify_result]
  · rw [classify_result]
    split
    · split <;> exact pget_target_head _ _
    · exact pget_target_head _ _

/-- C9 witness: on `"прочитай файл notes.txt"` the read pattern's single
group captures `notes.txt`, which is published as the target. -/
theorem c9_reverse_scan_target_witness :
    ∃ ps, analyze_intent emptyCM "прочитай файл notes.txt" =
        .ok ("read_file", ps) ∧
      pget ps "target" =
        some (match (raw_target [some "notes.txt"]).map cleanTarget with
          | some t => .vStr t
          | none => .vNone) :=
  c9_reverse_scan_target emptyCM "прочитай файл notes.txt" "read_file"
    [some "notes.txt"] (by decide) (by decide)

end SGA
